import Mathlib

/-!
Shallow embedding of the change-tracking core of the `homes` Django app
(`src/homes/models.py`, `src/homes/admin.py`).

Entity rows and in-memory instances are explicit structures; the database
is an explicit `Store` record; fixed-point decimals (`DecimalField` with
`decimal_places=2`) are integers counting hundredths; fallible operations
return `Except`.  Each definition carries a pointer to the source it
translates.
-/

/-- Thermostat `MODES` choices (models.py:12-18). -/
inductive TMode
  | off
  | fan
  | auto
  | cool
  | heat
deriving DecidableEq

/-- The stored string of a thermostat mode (the choice key). -/
def TMode.render : TMode → String
  | .off => "off"
  | .fan => "fan"
  | .auto => "auto"
  | .cool => "cool"
  | .heat => "heat"

/-- Light `STATE` choices (models.py:20-23). -/
inductive LState
  | on
  | off
deriving DecidableEq

/-- The stored string of a light state (the choice key). -/
def LState.render : LState → String
  | .on => "on"
  | .off => "off"

/-- `TYPE` choices for `TrackRecord.state_type` (models.py:25-30). -/
inductive StateType
  | state
  | temperature
  | mode
  | tempSetPoint
deriving DecidableEq

/-- The stored label of a `state_type` choice (models.py:25-30). -/
def StateType.label : StateType → String
  | .state => "State"
  | .temperature => "Temperature"
  | .mode => "Mode"
  | .tempSetPoint => "Temperature set point"

/-- The closed set of trackable content types
(`limit_choices_to=equipments`, models.py:51-55). -/
inductive Kind
  | room
  | light
  | thermostat
deriving DecidableEq

/-- `str(ContentType)` for each trackable model: Django renders a content
type by its verbose name, the lowercased model name (used in the
validation message of `TrackRecord.clean`, models.py:91-96). -/
def Kind.lowerName : Kind → String
  | .room => "room"
  | .light => "light"
  | .thermostat => "thermostat"

/-- A `DecimalField(decimal_places=2, max_digits=5)` value, counted in
hundredths (models.py:129-138, 202-206). -/
structure Dec2 where
  cents : Int
deriving DecidableEq

/-- String form of a 2-place decimal, as Django stores it into the
`CharField` columns `from_state` / `to_state`: sign, integer digits, a
point, and exactly two fraction digits (e.g. `"30.00"`, `"-999.99"`). -/
def Dec2.render (d : Dec2) : String :=
  let n := d.cents.natAbs
  let sign := if d.cents < 0 then "-" else ""
  let frac := n % 100
  let fracStr := (if frac < 10 then "0" else "") ++ toString frac
  sign ++ toString (n / 100) ++ "." ++ fracStr

/-- A persisted `TrackRecord` row (models.py:58-103).  `modified` is the
auto-now timestamp, modelled as a logical clock tick. -/
structure TrackRecord where
  pk : Nat
  name : String
  target_content_type : Kind
  target_object_id : Nat
  state_type : StateType
  from_state : String
  to_state : String
  modified : Nat
deriving DecidableEq

/-- A persisted `Thermostat` row (models.py:116-147). -/
structure Thermostat where
  pk : Nat
  name : String
  house : Nat
  mode : TMode
  current_temperature : Dec2
  temperature_set_point : Dec2
deriving DecidableEq

/-- A persisted `Room` row (models.py:194-215). -/
structure Room where
  pk : Nat
  name : String
  house : Nat
  current_temperature : Dec2
deriving DecidableEq

/-- A persisted `Light` row (models.py:235-256). -/
structure Light where
  pk : Nat
  name : String
  room : Nat
  state : LState
deriving DecidableEq

/-- The database state: entity tables, the track-record table, a pk
sequence for new track records, a pk sequence for new entity rows, and a
logical clock driving `modified` timestamps. -/
structure Store where
  rooms : List Room
  lights : List Light
  thermostats : List Thermostat
  trackRecords : List TrackRecord
  nextPk : Nat
  nextEntityPk : Nat
  now : Nat
deriving DecidableEq

/-- Resolution of the generic foreign key `target = (content type, id)`:
true iff an entity of that kind with that pk exists (models.py:63-67). -/
def Store.resolves (s : Store) (k : Kind) (oid : Nat) : Bool :=
  match k with
  | .room => s.rooms.any (fun r => r.pk == oid)
  | .light => s.lights.any (fun l => l.pk == oid)
  | .thermostat => s.thermostats.any (fun t => t.pk == oid)

/-- Whether a track record references the given target. -/
def targets (r : TrackRecord) (k : Kind) (oid : Nat) : Bool :=
  decide (r.target_content_type = k) && decide (r.target_object_id = oid)

/-- All track records referencing a given target (the query behind the
`track_records` `GenericRelation`, models.py:140-144). -/
def Store.trackRecordsFor (s : Store) (k : Kind) (oid : Nat) : List TrackRecord :=
  s.trackRecords.filter (fun r => targets r k oid)

/-- Field-validation errors of one `CharField` under `full_clean`:
Django rejects a blank value (`blank=False`) and a value longer than
`max_length`. -/
def charFieldErrors (field : String) (v : String) (maxLen : Nat) : List String :=
  (if v.length = 0 then [field ++ ": This field cannot be blank."] else []) ++
  (if maxLen < v.length then
    [field ++ ": Ensure this value has at most " ++ toString maxLen ++
      " characters (it has " ++ toString v.length ++ ")."]
  else [])

/-- `TrackRecord.full_clean` as invoked from `TrackRecord.save`
(models.py:86-96): Django collects the field errors of the char fields
(`name` max 200, `state_type` max 25, `from_state` / `to_state` max 6)
and then the error of `TrackRecord.clean`, which rejects a supplied
content type whose target does not resolve. -/
def trackRecordFullClean (s : Store) (nm : String) (ct : Option Kind) (oid : Nat)
    (st : StateType) (fs ts : String) : Except (List String) Unit :=
  let fieldErrors :=
    charFieldErrors "name" nm 200 ++
    charFieldErrors "state_type" st.label 25 ++
    charFieldErrors "from_state" fs 6 ++
    charFieldErrors "to_state" ts 6
  let cleanErrors :=
    match ct with
    | some k =>
        if s.resolves k oid then []
        else [k.lowerName ++ " with id " ++ toString oid ++ " does not exist!"]
    | none => []
  let es := fieldErrors ++ cleanErrors
  if es = [] then Except.ok () else Except.error es

/-- `TrackRecord.objects.create(...)`, which goes through
`TrackRecord.save` → `full_clean` (models.py:86-89): on success the row
is appended with a fresh pk and the current `modified` timestamp; a
validation error leaves the table untouched. -/
def trackRecordCreate (s : Store) (nm : String) (k : Kind) (oid : Nat)
    (st : StateType) (fs ts : String) : Except (List String) Store :=
  match trackRecordFullClean s nm (some k) oid st fs ts with
  | .error es => .error es
  | .ok _ =>
      .ok { s with
        trackRecords := s.trackRecords ++ [⟨s.nextPk, nm, k, oid, st, fs, ts, s.now⟩],
        nextPk := s.nextPk + 1,
        now := s.now + 1 }

/-- `TrackRecord.__str__` (models.py:98-103): the method returns the
display string when the target resolves, and falls off the end of the
function — returning Python `None` — when it does not. -/
def trackRecordDunderStr (s : Store) (r : TrackRecord) : Option String :=
  let targetName :=
    match r.target_content_type with
    | .room => (s.rooms.find? (fun e => e.pk == r.target_object_id)).map Room.name
    | .light => (s.lights.find? (fun e => e.pk == r.target_object_id)).map Light.name
    | .thermostat =>
        (s.thermostats.find? (fun e => e.pk == r.target_object_id)).map Thermostat.name
  match targetName with
  | some nm =>
      some ("[" ++ nm ++ "] " ++ r.state_type.label ++ " has been changed from " ++
        r.from_state ++ " to " ++ r.to_state ++ " at " ++ toString r.modified)
  | none => none

/-- Python `str(record)`: the `str` protocol requires `__str__` to return
a string; when `TrackRecord.__str__` returns `None` the interpreter
raises `TypeError`. -/
def pyStr (s : Store) (r : TrackRecord) : Except String String :=
  match trackRecordDunderStr s r with
  | some v => .ok v
  | none => .error "TypeError: __str__ returned non-string (type NoneType)"

/-- An in-memory `Thermostat` instance together with its `FieldTracker`
snapshot (models.py:139): `pk = none` means the instance has never been
persisted; the `prev_*` fields are the monitored values as last loaded,
so `tracker.has_changed(f)` is `f ≠ prev_f` and `tracker.previous(f)` is
`prev_f`. -/
structure ThermostatInstance where
  pk : Option Nat
  name : String
  house : Nat
  mode : TMode
  current_temperature : Dec2
  temperature_set_point : Dec2
  prev_mode : TMode
  prev_current_temperature : Dec2
  prev_temperature_set_point : Dec2
deriving DecidableEq

/-- An in-memory `Room` instance with its tracker snapshot
(models.py:207). -/
structure RoomInstance where
  pk : Option Nat
  name : String
  house : Nat
  current_temperature : Dec2
  prev_current_temperature : Dec2
deriving DecidableEq

/-- An in-memory `Light` instance with its tracker snapshot
(models.py:248). -/
structure LightInstance where
  pk : Option Nat
  name : String
  room : Nat
  state : LState
  prev_state : LState
deriving DecidableEq

/-- One `if self.tracker.has_changed(f): TrackRecord.objects.create(...)`
step inside an entity save.  Each create commits to the store as it runs
(Django autocommit — there is no transaction in models.py), and the first
raised `ValidationError` aborts the remaining steps while keeping the
rows already written. -/
def runStep (a : Store × Option (List String)) (changed : Bool)
    (mk : Store → Except (List String) Store) : Store × Option (List String) :=
  match a with
  | (st, some es) => (st, some es)
  | (st, none) =>
      if changed then
        match mk st with
        | .ok st2 => (st2, none)
        | .error es => (st, some es)
      else (st, none)

/-- The three tracked-field steps of `Thermostat.save`
(models.py:156-189), in source order: `current_temperature`,
`temperature_set_point`, `mode`. -/
def thermostatTrackSteps (s : Store) (t : ThermostatInstance) (pk : Nat) :
    Store × Option (List String) :=
  runStep (runStep (runStep (s, none)
      (decide (t.current_temperature ≠ t.prev_current_temperature))
      (fun st => trackRecordCreate st t.name Kind.thermostat pk StateType.temperature
        t.prev_current_temperature.render t.current_temperature.render))
      (decide (t.temperature_set_point ≠ t.prev_temperature_set_point))
      (fun st => trackRecordCreate st t.name Kind.thermostat pk StateType.tempSetPoint
        t.prev_temperature_set_point.render t.temperature_set_point.render))
      (decide (t.mode ≠ t.prev_mode))
      (fun st => trackRecordCreate st t.name Kind.thermostat pk StateType.mode
        t.prev_mode.render t.mode.render)

/-- `Thermostat.save` (models.py:149-191): an unsaved instance is
inserted with no track records; on update, one track record is attempted
per changed monitored field, in the order `current_temperature`,
`temperature_set_point`, `mode`, and then the row itself is updated.  The
second component is the pending `ValidationError`, `none` on success. -/
def thermostatSave (s : Store) (t : ThermostatInstance) : Store × Option (List String) :=
  match t.pk with
  | none =>
      ({ s with
          thermostats := s.thermostats ++
            [⟨s.nextEntityPk, t.name, t.house, t.mode, t.current_temperature,
              t.temperature_set_point⟩],
          nextEntityPk := s.nextEntityPk + 1 }, none)
  | some pk =>
      match thermostatTrackSteps s t pk with
      | (st, none) =>
          ({ st with
              thermostats := st.thermostats.map (fun row =>
                if row.pk == pk then
                  ⟨pk, t.name, t.house, t.mode, t.current_temperature,
                    t.temperature_set_point⟩
                else row) }, none)
      | (st, some es) => (st, some es)

/-- `Room.save` (models.py:217-232): on update with a changed
`current_temperature` one track record is attempted before the row
update; an unsaved instance is inserted untracked. -/
def roomSave (s : Store) (r : RoomInstance) : Store × Option (List String) :=
  match r.pk with
  | none =>
      ({ s with
          rooms := s.rooms ++ [⟨s.nextEntityPk, r.name, r.house, r.current_temperature⟩],
          nextEntityPk := s.nextEntityPk + 1 }, none)
  | some pk =>
      let a1 := runStep (s, none) (decide (r.current_temperature ≠ r.prev_current_temperature))
        (fun st => trackRecordCreate st r.name Kind.room pk StateType.temperature
          r.prev_current_temperature.render r.current_temperature.render)
      match a1 with
      | (st, none) =>
          ({ st with
              rooms := st.rooms.map (fun row =>
                if row.pk == pk then ⟨pk, r.name, r.house, r.current_temperature⟩
                else row) }, none)
      | (st, some es) => (st, some es)

/-- `Light.save` (models.py:258-272): on update with a changed `state`
one track record is attempted before the row update; an unsaved instance
is inserted untracked. -/
def lightSave (s : Store) (l : LightInstance) : Store × Option (List String) :=
  match l.pk with
  | none =>
      ({ s with
          lights := s.lights ++ [⟨s.nextEntityPk, l.name, l.room, l.state⟩],
          nextEntityPk := s.nextEntityPk + 1 }, none)
  | some pk =>
      let a1 := runStep (s, none) (decide (l.state ≠ l.prev_state))
        (fun st => trackRecordCreate st l.name Kind.light pk StateType.state
          l.prev_state.render l.state.render)
      match a1 with
      | (st, none) =>
          ({ st with
              lights := st.lights.map (fun row =>
                if row.pk == pk then ⟨pk, l.name, l.room, l.state⟩ else row) }, none)
      | (st, some es) => (st, some es)

/-- Cascade delete of a thermostat: the row disappears and the
`GenericRelation` (models.py:140-144, `on_delete=models.CASCADE` on
`target_content_type`) removes every track record targeting it, in one
atomic delete. -/
def Store.deleteThermostat (s : Store) (pk : Nat) : Store :=
  { s with
      thermostats := s.thermostats.filter (fun t => !(t.pk == pk)),
      trackRecords := s.trackRecords.filter (fun r => !(targets r Kind.thermostat pk)) }

/-- Cascade delete of a light (models.py:249-253). -/
def Store.deleteLight (s : Store) (pk : Nat) : Store :=
  { s with
      lights := s.lights.filter (fun l => !(l.pk == pk)),
      trackRecords := s.trackRecords.filter (fun r => !(targets r Kind.light pk)) }

/-- Cascade delete of a room (models.py:208-212): the room's lights are
cascade-deleted with it (`Light.room` has `on_delete=CASCADE`), taking
their own track records along. -/
def Store.deleteRoom (s : Store) (pk : Nat) : Store :=
  let doomedLights := s.lights.filter (fun l => l.room == pk)
  { s with
      rooms := s.rooms.filter (fun r => !(r.pk == pk)),
      lights := s.lights.filter (fun l => !(l.room == pk)),
      trackRecords := s.trackRecords.filter (fun r =>
        !(targets r Kind.room pk) &&
        !(doomedLights.any (fun l => targets r Kind.light l.pk))) }

/-- The Python classes reachable by name from `admin.py`'s module
namespace that are Django models (imports at admin.py:1-4); `eval` of any
other input raises (`NameError` for unknown names; non-model names fail
in `ContentType.objects.get_for_model`). -/
inductive PyClass
  | light
  | room
  | thermostat
  | house
  | trackRecord
  | contentType
deriving DecidableEq

/-- Model of `eval(self.value())` in `CustomListFilter.queryset`
(admin.py:37): a name bound to a model class in the module namespace
evaluates to that class; any other input is modelled as the raised
exception. -/
def pyEvalName : String → Except String PyClass
  | "Light" => .ok .light
  | "Room" => .ok .room
  | "Thermostat" => .ok .thermostat
  | "House" => .ok .house
  | "TrackRecord" => .ok .trackRecord
  | "ContentType" => .ok .contentType
  | s => .error ("NameError: name " ++ s ++ " is not defined")

/-- The trackable content type of a model class, when it is one of the
three equipment kinds; `House`, `TrackRecord` and `ContentType` have
content types of their own that no `TrackRecord.target_content_type`
ever equals. -/
def classContentKind : PyClass → Option Kind
  | .light => some Kind.light
  | .room => some Kind.room
  | .thermostat => some Kind.thermostat
  | _ => none

/-- `CustomListFilter.queryset` (admin.py:27-39): a missing or empty
filter value returns the queryset unchanged; otherwise the value is
`eval`-ed and the records are filtered by the resulting class's content
type. -/
def customListFilterQueryset (v : Option String) (rs : List TrackRecord) :
    Except String (List TrackRecord) :=
  match v with
  | none => .ok rs
  | some str =>
      if str = "" then .ok rs
      else
        match pyEvalName str with
        | .error e => .error e
        | .ok cls =>
            .ok (rs.filter (fun r => decide (classContentKind cls = some r.target_content_type)))

/-- The sort `ordering = ('-modified',)` of `TrackRecordAdmin`
(admin.py:45): descending by the `modified` timestamp. -/
def sortByModifiedDesc (rs : List TrackRecord) : List TrackRecord :=
  List.insertionSort (fun a b => b.modified ≤ a.modified) rs

/-- The admin audit listing (admin.py:42-46): the change list ordered by
`-modified` and then narrowed by `CustomListFilter`. -/
def adminListing (v : Option String) (rs : List TrackRecord) :
    Except String (List TrackRecord) :=
  customListFilterQueryset v (sortByModifiedDesc rs)

/-- The URL value of the filter option for each equipment kind
(admin.py:21-25). -/
def Kind.filterValue : Kind → String
  | .light => "Light"
  | .room => "Room"
  | .thermostat => "Thermostat"

theorem charFieldErrors_eq_nil (f v : String) (maxLen : Nat)
    (h1 : 0 < v.length) (h2 : v.length ≤ maxLen) :
    charFieldErrors f v maxLen = [] := by
  unfold charFieldErrors
  rw [if_neg (by omega), if_neg (by omega)]
  rfl

theorem stateType_label_ok (f : String) (st : StateType) :
    charFieldErrors f st.label 25 = [] := by
  cases st <;> rfl

theorem dec2_render_length_pos (d : Dec2) : 0 < d.render.length := by
  simp only [Dec2.render, String.length_append]
  have h : (".").length = 1 := rfl
  omega

theorem tmode_render_ok (f : String) (m : TMode) :
    charFieldErrors f m.render 6 = [] := by
  cases m <;> rfl

theorem lstate_render_ok (f : String) (st : LState) :
    charFieldErrors f st.render 6 = [] := by
  cases st <;> rfl

theorem tmode_render_length_pos (m : TMode) : 0 < m.render.length := by
  cases m <;> decide

theorem tmode_render_length_le (m : TMode) : m.render.length ≤ 6 := by
  cases m <;> decide

theorem lstate_render_length_pos (st : LState) : 0 < st.render.length := by
  cases st <;> decide

theorem lstate_render_length_le (st : LState) : st.render.length ≤ 6 := by
  cases st <;> decide

/-- Characterisation of `trackRecordCreate`: the collected validation
errors decide between a persisted row and a raised error. -/
theorem trackRecordCreate_spec (s : Store) (nm : String) (k : Kind) (oid : Nat)
    (st : StateType) (fs ts : String) :
    trackRecordCreate s nm k oid st fs ts =
      (if (charFieldErrors "name" nm 200 ++ charFieldErrors "state_type" st.label 25 ++
          charFieldErrors "from_state" fs 6 ++ charFieldErrors "to_state" ts 6 ++
          (if s.resolves k oid then []
           else [k.lowerName ++ " with id " ++ toString oid ++ " does not exist!"])) = [] then
        Except.ok { s with
          trackRecords := s.trackRecords ++ [⟨s.nextPk, nm, k, oid, st, fs, ts, s.now⟩],
          nextPk := s.nextPk + 1,
          now := s.now + 1 }
      else
        Except.error (charFieldErrors "name" nm 200 ++
          charFieldErrors "state_type" st.label 25 ++
          charFieldErrors "from_state" fs 6 ++ charFieldErrors "to_state" ts 6 ++
          (if s.resolves k oid then []
           else [k.lowerName ++ " with id " ++ toString oid ++ " does not exist!"]))) := by
  unfold trackRecordCreate trackRecordFullClean
  dsimp only
  by_cases h : (charFieldErrors "name" nm 200 ++ charFieldErrors "state_type" st.label 25 ++
      charFieldErrors "from_state" fs 6 ++ charFieldErrors "to_state" ts 6 ++
      (if s.resolves k oid then []
       else [k.lowerName ++ " with id " ++ toString oid ++ " does not exist!"])) = []
  · rw [if_pos h, if_pos h]
  · rw [if_neg h, if_neg h]

theorem trackRecordCreate_ok (s : Store) (nm : String) (k : Kind) (oid : Nat)
    (st : StateType) (fs ts : String)
    (hn1 : 0 < nm.length) (hn2 : nm.length ≤ 200)
    (hf1 : 0 < fs.length) (hf2 : fs.length ≤ 6)
    (ht1 : 0 < ts.length) (ht2 : ts.length ≤ 6)
    (hres : s.resolves k oid = true) :
    trackRecordCreate s nm k oid st fs ts =
      Except.ok { s with
        trackRecords := s.trackRecords ++ [⟨s.nextPk, nm, k, oid, st, fs, ts, s.now⟩],
        nextPk := s.nextPk + 1,
        now := s.now + 1 } := by
  rw [trackRecordCreate_spec]
  rw [if_pos]
  rw [charFieldErrors_eq_nil _ _ _ hn1 hn2, stateType_label_ok,
    charFieldErrors_eq_nil _ _ _ hf1 hf2, charFieldErrors_eq_nil _ _ _ ht1 ht2, hres]
  simp

theorem trackRecordCreate_unresolved (s : Store) (nm : String) (k : Kind) (oid : Nat)
    (st : StateType) (fs ts : String) (hres : s.resolves k oid = false) :
    ∃ es, trackRecordCreate s nm k oid st fs ts = Except.error es ∧
      (k.lowerName ++ " with id " ++ toString oid ++ " does not exist!") ∈ es := by
  rw [trackRecordCreate_spec]
  rw [hres]
  rw [if_neg]
  · exact ⟨_, rfl, by simp⟩
  · intro h
    rcases List.append_eq_nil.mp h with ⟨-, h2⟩
    simp at h2

theorem trackRecordCreate_overlong (s : Store) (nm : String) (k : Kind) (oid : Nat)
    (st : StateType) (fs ts : String) (h : 6 < fs.length ∨ 6 < ts.length) :
    ∃ es, trackRecordCreate s nm k oid st fs ts = Except.error es := by
  rw [trackRecordCreate_spec]
  rw [if_neg]
  · exact ⟨_, rfl⟩
  · intro hnil
    rcases List.append_eq_nil.mp hnil with ⟨h1, -⟩
    rcases List.append_eq_nil.mp h1 with ⟨h2, hts⟩
    rcases List.append_eq_nil.mp h2 with ⟨-, hfs⟩
    rcases h with h | h
    · unfold charFieldErrors at hfs
      rw [if_neg (by omega), if_pos (by omega)] at hfs
      simp at hfs
    · unfold charFieldErrors at hts
      rw [if_neg (by omega), if_pos (by omega)] at hts
      simp at hts

theorem trackRecordCreate_tables (s : Store) (nm : String) (k : Kind) (oid : Nat)
    (st : StateType) (fs ts : String) (s₂ : Store)
    (h : trackRecordCreate s nm k oid st fs ts = Except.ok s₂) :
    s₂.thermostats = s.thermostats ∧ s₂.rooms = s.rooms ∧ s₂.lights = s.lights := by
  rw [trackRecordCreate_spec] at h
  by_cases hnil : (charFieldErrors "name" nm 200 ++ charFieldErrors "state_type" st.label 25 ++
      charFieldErrors "from_state" fs 6 ++ charFieldErrors "to_state" ts 6 ++
      (if s.resolves k oid then []
       else [k.lowerName ++ " with id " ++ toString oid ++ " does not exist!"])) = []
  · rw [if_pos hnil] at h
    cases h
    exact ⟨rfl, rfl, rfl⟩
  · rw [if_neg hnil] at h
    cases h

theorem runStep_some (st : Store) (es : List String) (c : Bool)
    (mk : Store → Except (List String) Store) :
    runStep (st, some es) c mk = (st, some es) := rfl

theorem runStep_changed_of_ok {st st2 : Store} {mk : Store → Except (List String) Store}
    (hmk : mk st = Except.ok st2) : runStep (st, none) true mk = (st2, none) := by
  simp [runStep, hmk]

theorem runStep_changed_of_error {st : Store} {mk : Store → Except (List String) Store}
    {es : List String} (hmk : mk st = Except.error es) :
    runStep (st, none) true mk = (st, some es) := by
  simp [runStep, hmk]

theorem runStep_snd_none {a : Store × Option (List String)} {c : Bool}
    {mk : Store → Except (List String) Store}
    (h : (runStep a c mk).2 = none) : a.2 = none := by
  rcases a with ⟨st, e⟩
  cases e with
  | none => rfl
  | some es => simp [runStep] at h

theorem runStep_none_changed {st : Store} {mk : Store → Except (List String) Store}
    (h : (runStep (st, none) true mk).2 = none) : ∃ st2, mk st = Except.ok st2 := by
  cases hmk : mk st with
  | ok st2 => exact ⟨st2, rfl⟩
  | error es =>
      rw [runStep_changed_of_error hmk] at h
      simp at h

theorem runStep_fst_proj {α : Type} (f : Store → α) (a : Store × Option (List String))
    (c : Bool) (mk : Store → Except (List String) Store)
    (hmk : ∀ st st2, mk st = Except.ok st2 → f st2 = f st) :
    f (runStep a c mk).1 = f a.1 := by
  rcases a with ⟨st, e⟩
  cases e with
  | some es => rfl
  | none =>
      cases c with
      | false => rfl
      | true =>
          cases hmk2 : mk st with
          | ok st2 =>
              rw [runStep_changed_of_ok hmk2]
              exact hmk st st2 hmk2
          | error es => rw [runStep_changed_of_error hmk2]

/-- C3: an initial creation (a save of an instance with no persisted
identity, `pk = none`) of a Thermostat, Room or Light succeeds and
appends no `TrackRecord`, whatever the field values and whatever the
tracker snapshot claims has changed. -/
theorem c3_create_never_tracks (s : Store)
    (t : ThermostatInstance) (r : RoomInstance) (l : LightInstance)
    (ht : t.pk = none) (hr : r.pk = none) (hl : l.pk = none) :
    ((thermostatSave s t).1.trackRecords = s.trackRecords ∧ (thermostatSave s t).2 = none) ∧
    ((roomSave s r).1.trackRecords = s.trackRecords ∧ (roomSave s r).2 = none) ∧
    ((lightSave s l).1.trackRecords = s.trackRecords ∧ (lightSave s l).2 = none) := by
  refine ⟨⟨?_, ?_⟩, ⟨?_, ?_⟩, ⟨?_, ?_⟩⟩ <;>
    simp [thermostatSave, roomSave, lightSave, thermostatTrackSteps, ht, hr, hl]

def w3Store : Store := ⟨[], [], [], [], 1, 1, 0⟩

def w3Thermo : ThermostatInstance :=
  ⟨none, "Thermo", 1, TMode.cool, ⟨3000⟩, ⟨4500⟩, TMode.off, ⟨0⟩, ⟨0⟩⟩

def w3Room : RoomInstance := ⟨none, "Room1", 1, ⟨3300⟩, ⟨0⟩⟩

def w3Light : LightInstance := ⟨none, "Light1", 1, LState.on, LState.off⟩

theorem c3_create_never_tracks_witness :
    ((thermostatSave w3Store w3Thermo).1.trackRecords = w3Store.trackRecords ∧
      (thermostatSave w3Store w3Thermo).2 = none) ∧
    ((roomSave w3Store w3Room).1.trackRecords = w3Store.trackRecords ∧
      (roomSave w3Store w3Room).2 = none) ∧
    ((lightSave w3Store w3Light).1.trackRecords = w3Store.trackRecords ∧
      (lightSave w3Store w3Light).2 = none) :=
  c3_create_never_tracks w3Store w3Thermo w3Room w3Light rfl rfl rfl

/-- C7: an update-save (persisted identity present) in which every
monitored field equals its tracker snapshot — so only the name and/or
the owning reference may differ — succeeds and leaves the set of
persisted `TrackRecord` rows unchanged, for each trackable entity
type. -/
theorem c7_unmonitored_update_no_tracks (s : Store)
    (t : ThermostatInstance) (r : RoomInstance) (l : LightInstance)
    (pt pr pl : Nat)
    (ht : t.pk = some pt) (ht1 : t.mode = t.prev_mode)
    (ht2 : t.current_temperature = t.prev_current_temperature)
    (ht3 : t.temperature_set_point = t.prev_temperature_set_point)
    (hr : r.pk = some pr) (hr1 : r.current_temperature = r.prev_current_temperature)
    (hl : l.pk = some pl) (hl1 : l.state = l.prev_state) :
    ((thermostatSave s t).1.trackRecords = s.trackRecords ∧ (thermostatSave s t).2 = none) ∧
    ((roomSave s r).1.trackRecords = s.trackRecords ∧ (roomSave s r).2 = none) ∧
    ((lightSave s l).1.trackRecords = s.trackRecords ∧ (lightSave s l).2 = none) := by
  refine ⟨⟨?_, ?_⟩, ⟨?_, ?_⟩, ⟨?_, ?_⟩⟩ <;>
    simp [thermostatSave, roomSave, lightSave, thermostatTrackSteps, runStep,
      ht, ht1, ht2, ht3, hr, hr1, hl, hl1]

def w7Store : Store :=
  ⟨[⟨1, "Room1", 1, ⟨3300⟩⟩], [⟨2, "Light1", 1, LState.on⟩],
    [⟨3, "Thermo1", 1, TMode.cool, ⟨3000⟩, ⟨4500⟩⟩],
    [⟨1, "Old", Kind.room, 1, StateType.temperature, "33.00", "35.00", 0⟩], 2, 4, 1⟩

def w7Thermo : ThermostatInstance :=
  ⟨some 3, "Renamed", 2, TMode.cool, ⟨3000⟩, ⟨4500⟩, TMode.cool, ⟨3000⟩, ⟨4500⟩⟩

def w7Room : RoomInstance := ⟨some 1, "Renamed", 2, ⟨3300⟩, ⟨3300⟩⟩

def w7Light : LightInstance := ⟨some 2, "Renamed", 2, LState.on, LState.on⟩

theorem c7_unmonitored_update_no_tracks_witness :
    ((thermostatSave w7Store w7Thermo).1.trackRecords = w7Store.trackRecords ∧
      (thermostatSave w7Store w7Thermo).2 = none) ∧
    ((roomSave w7Store w7Room).1.trackRecords = w7Store.trackRecords ∧
      (roomSave w7Store w7Room).2 = none) ∧
    ((lightSave w7Store w7Light).1.trackRecords = w7Store.trackRecords ∧
      (lightSave w7Store w7Light).2 = none) :=
  c7_unmonitored_update_no_tracks w7Store w7Thermo w7Room w7Light 3 1 2
    rfl rfl rfl rfl rfl rfl rfl rfl

/-- C2 (amended): a `TrackRecord` creation whose (target type, target id)
pair does not resolve fails with a validation error that carries the
message "<type> with id <id> does not exist!" (type in lowercase) and
persists nothing; when the pair resolves **and the char-field values
pass field validation** (non-blank, name at most 200 and from/to states
at most 6 characters), validation passes and the record is persisted. -/
theorem c2_target_validation :
    (∀ (s : Store) (nm : String) (k : Kind) (oid : Nat) (st : StateType) (fs ts : String),
      s.resolves k oid = false →
      ∃ es, trackRecordCreate s nm k oid st fs ts = Except.error es ∧
        (k.lowerName ++ " with id " ++ toString oid ++ " does not exist!") ∈ es) ∧
    (∀ (s : Store) (nm : String) (k : Kind) (oid : Nat) (st : StateType) (fs ts : String),
      s.resolves k oid = true →
      0 < nm.length → nm.length ≤ 200 → 0 < fs.length → fs.length ≤ 6 →
      0 < ts.length → ts.length ≤ 6 →
      trackRecordCreate s nm k oid st fs ts =
        Except.ok { s with
          trackRecords := s.trackRecords ++ [⟨s.nextPk, nm, k, oid, st, fs, ts, s.now⟩],
          nextPk := s.nextPk + 1,
          now := s.now + 1 }) :=
  ⟨fun s nm k oid st fs ts h => trackRecordCreate_unresolved s nm k oid st fs ts h,
   fun s nm k oid st fs ts hres hn1 hn2 hf1 hf2 ht1 ht2 =>
     trackRecordCreate_ok s nm k oid st fs ts hn1 hn2 hf1 hf2 ht1 ht2 hres⟩

def c2Store : Store := ⟨[⟨1, "Room1", 1, ⟨3300⟩⟩], [], [], [], 1, 2, 0⟩

/-- C2, counterexample to the claim as frozen: the pair (room, 1)
resolves, yet the creation is not persisted — the 7-character
`from_state` value "-999.99" fails the `max_length=6` field validation
that `full_clean` runs alongside `TrackRecord.clean`. -/
theorem c2_target_validation_counterexample :
    c2Store.resolves Kind.room 1 = true ∧
    trackRecordCreate c2Store "Track" Kind.room 1 StateType.temperature "-999.99" "40.00" =
      Except.error ["from_state: Ensure this value has at most 6 characters (it has 7)."] := by
  exact ⟨rfl, rfl⟩

theorem c2_target_validation_witness :
    (∃ es, trackRecordCreate c2Store "Track Room" Kind.room 10 StateType.state "on" "off" =
        Except.error es ∧ ("room with id 10 does not exist!") ∈ es) ∧
    trackRecordCreate c2Store "Track" Kind.room 1 StateType.temperature "33.00" "40.00" =
      Except.ok { c2Store with
        trackRecords := c2Store.trackRecords ++
          [⟨c2Store.nextPk, "Track", Kind.room, 1, StateType.temperature,
            "33.00", "40.00", c2Store.now⟩],
        nextPk := c2Store.nextPk + 1,
        now := c2Store.now + 1 } :=
  ⟨c2_target_validation.1 c2Store "Track Room" Kind.room 10 StateType.state "on" "off"
      (by decide),
   c2_target_validation.2 c2Store "Track" Kind.room 1 StateType.temperature "33.00" "40.00"
      (by decide) (by decide) (by decide) (by decide) (by decide) (by decide) (by decide)⟩

/-- C1 (amended): an update-save of a persisted Thermostat in which
`mode`, `current_temperature` and `temperature_set_point` all differ
from their tracker snapshot — provided the name passes field validation
and each of the four decimal renderings fits the 6-character
`from_state`/`to_state` columns — succeeds and appends exactly three
`TrackRecord` rows, in the order `current_temperature`,
`temperature_set_point`, `mode`, each with the matching `state_type`
label and the snapshot/pending values rendered with exactly two fraction
digits (mode values as their choice keys). -/
theorem c1_thermostat_triple_update (s : Store) (t : ThermostatInstance) (pk : Nat)
    (hpk : t.pk = some pk)
    (hres : s.resolves Kind.thermostat pk = true)
    (hn1 : 0 < t.name.length) (hn2 : t.name.length ≤ 200)
    (hc : t.current_temperature ≠ t.prev_current_temperature)
    (hsp : t.temperature_set_point ≠ t.prev_temperature_set_point)
    (hm : t.mode ≠ t.prev_mode)
    (hl1 : t.prev_current_temperature.render.length ≤ 6)
    (hl2 : t.current_temperature.render.length ≤ 6)
    (hl3 : t.prev_temperature_set_point.render.length ≤ 6)
    (hl4 : t.temperature_set_point.render.length ≤ 6) :
    (thermostatSave s t).2 = none ∧
    (thermostatSave s t).1.trackRecords = s.trackRecords ++
      [⟨s.nextPk, t.name, Kind.thermostat, pk, StateType.temperature,
        t.prev_current_temperature.render, t.current_temperature.render, s.now⟩,
       ⟨s.nextPk + 1, t.name, Kind.thermostat, pk, StateType.tempSetPoint,
        t.prev_temperature_set_point.render, t.temperature_set_point.render, s.now + 1⟩,
       ⟨s.nextPk + 2, t.name, Kind.thermostat, pk, StateType.mode,
        t.prev_mode.render, t.mode.render, s.now + 2⟩] := by
  have e1 := trackRecordCreate_ok s t.name Kind.thermostat pk StateType.temperature
    t.prev_current_temperature.render t.current_temperature.render hn1 hn2
    (dec2_render_length_pos _) hl1 (dec2_render_length_pos _) hl2 hres
  have e2 := trackRecordCreate_ok
    { s with
        trackRecords := s.trackRecords ++ [⟨s.nextPk, t.name, Kind.thermostat, pk,
          StateType.temperature, t.prev_current_temperature.render,
          t.current_temperature.render, s.now⟩],
        nextPk := s.nextPk + 1,
        now := s.now + 1 }
    t.name Kind.thermostat pk StateType.tempSetPoint
    t.prev_temperature_set_point.render t.temperature_set_point.render hn1 hn2
    (dec2_render_length_pos _) hl3 (dec2_render_length_pos _) hl4 hres
  have e3 := trackRecordCreate_ok
    { s with
        trackRecords := (s.trackRecords ++ [⟨s.nextPk, t.name, Kind.thermostat, pk,
            StateType.temperature, t.prev_current_temperature.render,
            t.current_temperature.render, s.now⟩]) ++
          [⟨s.nextPk + 1, t.name, Kind.thermostat, pk,
            StateType.tempSetPoint, t.prev_temperature_set_point.render,
            t.temperature_set_point.render, s.now + 1⟩],
        nextPk := s.nextPk + 1 + 1,
        now := s.now + 1 + 1 }
    t.name Kind.thermostat pk StateType.mode
    t.prev_mode.render t.mode.render hn1 hn2
    (tmode_render_length_pos _) (tmode_render_length_le _)
    (tmode_render_length_pos _) (tmode_render_length_le _)
    hres
  unfold thermostatSave thermostatTrackSteps
  rw [hpk]
  dsimp only
  rw [decide_eq_true hc, decide_eq_true hsp, decide_eq_true hm]
  rw [runStep_changed_of_ok e1, runStep_changed_of_ok e2, runStep_changed_of_ok e3]
  dsimp only
  simp

def c1Store : Store :=
  ⟨[], [], [⟨1, "Thermo1", 1, TMode.cool, ⟨3000⟩, ⟨4500⟩⟩], [], 1, 2, 0⟩

def c1Thermo : ThermostatInstance :=
  ⟨some 1, "Thermo1", 1, TMode.fan, ⟨6600⟩, ⟨8900⟩, TMode.cool, ⟨3000⟩, ⟨4500⟩⟩

theorem c1_thermostat_triple_update_witness :
    (thermostatSave c1Store c1Thermo).2 = none ∧
    (thermostatSave c1Store c1Thermo).1.trackRecords =
      [⟨1, "Thermo1", Kind.thermostat, 1, StateType.temperature, "30.00", "66.00", 0⟩,
       ⟨2, "Thermo1", Kind.thermostat, 1, StateType.tempSetPoint, "45.00", "89.00", 1⟩,
       ⟨3, "Thermo1", Kind.thermostat, 1, StateType.mode, "cool", "fan", 2⟩] := by
  have h := c1_thermostat_triple_update c1Store c1Thermo 1 rfl (by decide) (by decide)
    (by decide) (by decide) (by decide) (by decide) (by decide) (by decide) (by decide)
    (by decide)
  refine ⟨h.1, h.2.trans ?_⟩
  decide

def c1xStore : Store :=
  ⟨[], [], [⟨1, "Thermo1", 1, TMode.cool, ⟨-99999⟩, ⟨4500⟩⟩], [], 1, 2, 0⟩

def c1xThermo : ThermostatInstance :=
  ⟨some 1, "Thermo1", 1, TMode.fan, ⟨6600⟩, ⟨8900⟩, TMode.cool, ⟨-99999⟩, ⟨4500⟩⟩

/-- C1, counterexample to the claim as frozen: a persisted Thermostat
whose loaded `current_temperature` is the legal decimal -999.99 (which
renders to 7 characters), updated so that all three monitored fields
differ from their snapshot, raises a validation error and appends zero
`TrackRecord` rows — not three. -/
theorem c1_thermostat_triple_update_counterexample :
    (thermostatSave c1xStore c1xThermo).2 ≠ none ∧
    (thermostatSave c1xStore c1xThermo).1.trackRecords = [] := by
  decide

def c4Store : Store :=
  ⟨[], [], [⟨1, "Thermo1", 1, TMode.cool, ⟨3000⟩, ⟨4500⟩⟩], [], 1, 2, 0⟩

def c4Thermo : ThermostatInstance :=
  ⟨some 1, "Thermo1", 1, TMode.cool, ⟨3100⟩, ⟨-99999⟩, TMode.cool, ⟨3000⟩, ⟨4500⟩⟩

/-- C4: the save is not atomic.  At this input the `current_temperature`
record is created and committed, the `temperature_set_point` record then
fails validation (its `to_state` "-999.99" exceeds 6 characters) and the
save raises — yet the already-written record survives while the entity
row keeps its old values: observable partial state, because
`Thermostat.save` issues its `TrackRecord.objects.create` calls with no
enclosing transaction. -/
theorem c4_save_not_atomic :
    (thermostatSave c4Store c4Thermo).2 ≠ none ∧
    (thermostatSave c4Store c4Thermo).1.trackRecords =
      [⟨1, "Thermo1", Kind.thermostat, 1, StateType.temperature, "30.00", "31.00", 0⟩] ∧
    (thermostatSave c4Store c4Thermo).1.thermostats = c4Store.thermostats := by
  decide

def c6Store : Store := ⟨[], [], [], [], 1, 1, 0⟩

def c6Record : TrackRecord :=
  ⟨1, "Track Room", Kind.room, 10, StateType.temperature, "30.00", "40.00", 0⟩

/-- C6: rendering a `TrackRecord` whose target no longer resolves does
crash — `TrackRecord.__str__` falls through its `if self.target:` guard
and returns `None`, so Python's `str()` raises `TypeError` instead of
yielding an empty display value. -/
theorem c6_str_of_unresolved_crashes :
    trackRecordDunderStr c6Store c6Record = none ∧
    pyStr c6Store c6Record =
      Except.error "TypeError: __str__ returned non-string (type NoneType)" := by
  exact ⟨rfl, rfl⟩

/-- C5: deleting a trackable entity removes, in one atomic step, the
entity together with every `TrackRecord` targeting it: afterwards the
target no longer resolves and querying its records returns none; for
Thermostat and Light (whose deletes cascade to no other trackable
entity) a record survives iff it was there before and targeted something
else, and for Room the records of the deleted room never survive. -/
theorem c5_cascade_delete (s : Store) (pk : Nat) :
    ((s.deleteThermostat pk).trackRecordsFor Kind.thermostat pk = [] ∧
     (s.deleteThermostat pk).resolves Kind.thermostat pk = false ∧
     ∀ r, r ∈ (s.deleteThermostat pk).trackRecords ↔
       (r ∈ s.trackRecords ∧ targets r Kind.thermostat pk = false)) ∧
    ((s.deleteLight pk).trackRecordsFor Kind.light pk = [] ∧
     (s.deleteLight pk).resolves Kind.light pk = false ∧
     ∀ r, r ∈ (s.deleteLight pk).trackRecords ↔
       (r ∈ s.trackRecords ∧ targets r Kind.light pk = false)) ∧
    ((s.deleteRoom pk).trackRecordsFor Kind.room pk = [] ∧
     (s.deleteRoom pk).resolves Kind.room pk = false ∧
     ∀ r, r ∈ (s.deleteRoom pk).trackRecords → targets r Kind.room pk = false) := by
  refine ⟨⟨?_, ?_, ?_⟩, ⟨?_, ?_, ?_⟩, ⟨?_, ?_, ?_⟩⟩
  · rw [List.eq_nil_iff_forall_not_mem]
    intro r hr
    simp [Store.trackRecordsFor, Store.deleteThermostat, List.mem_filter] at hr
  · simp [Store.resolves, Store.deleteThermostat, List.any_eq_true, List.mem_filter]
  · intro r
    simp [Store.deleteThermostat, List.mem_filter]
  · rw [List.eq_nil_iff_forall_not_mem]
    intro r hr
    simp [Store.trackRecordsFor, Store.deleteLight, List.mem_filter] at hr
  · simp [Store.resolves, Store.deleteLight, List.any_eq_true, List.mem_filter]
  · intro r
    simp [Store.deleteLight, List.mem_filter]
  · rw [List.eq_nil_iff_forall_not_mem]
    intro r hr
    simp [Store.trackRecordsFor, Store.deleteRoom, List.mem_filter] at hr
    exact absurd (hr.2.1.symm.trans hr.2.2.1) (by decide)
  · simp [Store.resolves, Store.deleteRoom, List.any_eq_true, List.mem_filter]
  · intro r hr
    simp [Store.deleteRoom, List.mem_filter] at hr
    exact hr.2.1

def c5Store : Store :=
  ⟨[⟨1, "Room1", 1, ⟨3300⟩⟩], [⟨2, "Light1", 1, LState.on⟩],
   [⟨3, "Thermo1", 1, TMode.cool, ⟨3000⟩, ⟨4500⟩⟩],
   [⟨1, "Room1", Kind.room, 1, StateType.temperature, "33.00", "40.00", 0⟩,
    ⟨2, "Light1", Kind.light, 2, StateType.state, "on", "off", 1⟩,
    ⟨3, "Thermo1", Kind.thermostat, 3, StateType.temperature, "30.00", "31.00", 2⟩],
   4, 4, 3⟩

def c5ThermoRec : TrackRecord :=
  ⟨3, "Thermo1", Kind.thermostat, 3, StateType.temperature, "30.00", "31.00", 2⟩

theorem c5_cascade_delete_witness :
    (c5Store.deleteThermostat 3).trackRecordsFor Kind.thermostat 3 = [] ∧
    (c5Store.deleteRoom 1).resolves Kind.room 1 = false ∧
    targets c5ThermoRec Kind.room 1 = false :=
  ⟨(c5_cascade_delete c5Store 3).1.1,
   (c5_cascade_delete c5Store 1).2.2.2.1,
   (c5_cascade_delete c5Store 1).2.2.2.2 c5ThermoRec (by decide)⟩

theorem thermostatTrackSteps_thermostats (s : Store) (t : ThermostatInstance) (pk : Nat) :
    (thermostatTrackSteps s t pk).1.thermostats = s.thermostats := by
  unfold thermostatTrackSteps
  rw [runStep_fst_proj Store.thermostats _ _ _
        (fun st st2 h => (trackRecordCreate_tables _ _ _ _ _ _ _ _ h).1),
      runStep_fst_proj Store.thermostats _ _ _
        (fun st st2 h => (trackRecordCreate_tables _ _ _ _ _ _ _ _ h).1),
      runStep_fst_proj Store.thermostats _ _ _
        (fun st st2 h => (trackRecordCreate_tables _ _ _ _ _ _ _ _ h).1)]

theorem thermostatSave_of_steps_error (s : Store) (t : ThermostatInstance) (pk : Nat)
    (st3 : Store) (es : List String) (hpk : t.pk = some pk)
    (h : thermostatTrackSteps s t pk = (st3, some es)) :
    thermostatSave s t = (st3, some es) := by
  unfold thermostatSave
  rw [hpk]
  dsimp only
  rw [h]

/-- C9: on an update-save of a Room or Thermostat, if a changed
monitored decimal field's old or new value renders to a string longer
than the 6-character `from_state`/`to_state` columns admit, the save
raises a validation error and the entity row is not updated — so some
legal `max_digits=5` decimals (e.g. -999.99) make every audit-producing
save fail. -/
theorem c9_overlong_decimal_fails :
    (∀ (s : Store) (r : RoomInstance) (pk : Nat), r.pk = some pk →
      r.current_temperature ≠ r.prev_current_temperature →
      (6 < r.prev_current_temperature.render.length ∨
        6 < r.current_temperature.render.length) →
      (∃ es, (roomSave s r).2 = some es) ∧ (roomSave s r).1.rooms = s.rooms) ∧
    (∀ (s : Store) (t : ThermostatInstance) (pk : Nat), t.pk = some pk →
      ((t.current_temperature ≠ t.prev_current_temperature ∧
          (6 < t.prev_current_temperature.render.length ∨
            6 < t.current_temperature.render.length)) ∨
        (t.temperature_set_point ≠ t.prev_temperature_set_point ∧
          (6 < t.prev_temperature_set_point.render.length ∨
            6 < t.temperature_set_point.render.length))) →
      (∃ es, (thermostatSave s t).2 = some es) ∧
        (thermostatSave s t).1.thermostats = s.thermostats) := by
  constructor
  · intro s r pk hpk hc hov
    obtain ⟨es, herr⟩ := trackRecordCreate_overlong s r.name Kind.room pk
      StateType.temperature _ _ hov
    unfold roomSave
    rw [hpk]
    dsimp only
    rw [decide_eq_true hc, runStep_changed_of_error herr]
    exact ⟨⟨es, rfl⟩, rfl⟩
  · intro s t pk hpk hov
    rcases h3 : thermostatTrackSteps s t pk with ⟨st3, e3⟩
    cases e3 with
    | some es =>
        rw [thermostatSave_of_steps_error s t pk st3 es hpk h3]
        refine ⟨⟨es, rfl⟩, ?_⟩
        have hth := thermostatTrackSteps_thermostats s t pk
        rw [h3] at hth
        exact hth
    | none =>
        exfalso
        have h3snd : (thermostatTrackSteps s t pk).2 = none := by rw [h3]
        unfold thermostatTrackSteps at h3snd
        have h2 := runStep_snd_none h3snd
        have h1 := runStep_snd_none h2
        rcases hov with ⟨hc, hov⟩ | ⟨hsp, hov⟩
        · rw [decide_eq_true hc] at h1
          obtain ⟨st2, hok⟩ := runStep_none_changed h1
          obtain ⟨es, herr⟩ := trackRecordCreate_overlong s t.name Kind.thermostat pk
            StateType.temperature _ _ hov
          rw [herr] at hok
          exact Except.noConfusion hok
        · rw [decide_eq_true hsp] at h2
          generalize runStep (s, none)
              (decide (t.current_temperature ≠ t.prev_current_temperature))
              (fun st => trackRecordCreate st t.name Kind.thermostat pk StateType.temperature
                t.prev_current_temperature.render t.current_temperature.render) = A at h1 h2
          rcases A with ⟨st1, e1⟩
          dsimp only at h1
          subst h1
          obtain ⟨st2, hok⟩ := runStep_none_changed h2
          obtain ⟨es, herr⟩ := trackRecordCreate_overlong st1 t.name Kind.thermostat pk
            StateType.tempSetPoint _ _ hov
          rw [herr] at hok
          exact Except.noConfusion hok

def c9Store : Store := ⟨[⟨1, "Room1", 1, ⟨3300⟩⟩], [], [], [], 1, 2, 0⟩

def c9Room : RoomInstance := ⟨some 1, "Room1", 1, ⟨-99999⟩, ⟨3300⟩⟩

theorem c9_overlong_decimal_fails_witness :
    (∃ es, (roomSave c9Store c9Room).2 = some es) ∧
    (roomSave c9Store c9Room).1.rooms = c9Store.rooms :=
  c9_overlong_decimal_fails.1 c9Store c9Room 1 rfl (by decide) (by decide)

instance : IsTotal TrackRecord (fun a b => b.modified ≤ a.modified) :=
  ⟨fun a b => Nat.le_total b.modified a.modified⟩

instance : IsTrans TrackRecord (fun a b => b.modified ≤ a.modified) :=
  ⟨fun _ _ _ hab hbc => Nat.le_trans hbc hab⟩

/-- C8: the audit listing filtered by an equipment kind's URL value
returns exactly the entries whose target type is that kind; the listing
with no kind selected returns all entries, ordered descending by the
`modified` timestamp. -/
theorem c8_audit_filter_and_ordering (rs : List TrackRecord) :
    (∀ k : Kind, ∃ l, adminListing (some k.filterValue) rs = Except.ok l ∧
      ∀ r, r ∈ l ↔ (r ∈ rs ∧ r.target_content_type = k)) ∧
    (∃ l, adminListing none rs = Except.ok l ∧ l.Perm rs ∧
      l.Pairwise (fun a b => b.modified ≤ a.modified)) := by
  constructor
  · intro k
    cases k <;>
      refine ⟨_, rfl, ?_⟩ <;>
      intro r <;>
      simp [sortByModifiedDesc, List.mem_filter, List.mem_insertionSort,
        classContentKind, eq_comm]
  · refine ⟨_, rfl, ?_, ?_⟩
    · exact List.perm_insertionSort _ rs
    · exact List.sorted_insertionSort _ rs

/-- C10: a non-empty equipment-filter value is handed to `eval`; for any
value outside the three advertised kinds the filter either raises (the
modelled evaluation errors, e.g. `NameError` for a name not bound in the
module) or executes the supplied expression and filters by whatever
class it denotes — it never falls back to a plain filtered/unfiltered
result, so the filter is not total over its input strings. -/
theorem c10_filter_evals_value (v : String) (rs : List TrackRecord)
    (hne : v ≠ "") (_hv1 : v ≠ "Light") (_hv2 : v ≠ "Room") (_hv3 : v ≠ "Thermostat") :
    (∃ e, customListFilterQueryset (some v) rs = Except.error e) ∨
    (∃ c, pyEvalName v = Except.ok c ∧
      customListFilterQueryset (some v) rs =
        Except.ok (rs.filter
          (fun r => decide (classContentKind c = some r.target_content_type)))) := by
  unfold customListFilterQueryset
  dsimp only
  rw [if_neg hne]
  cases he : pyEvalName v with
  | error e => exact Or.inl ⟨e, rfl⟩
  | ok c => exact Or.inr ⟨c, rfl, rfl⟩

theorem c10_filter_evals_value_witness :
    (∃ e, customListFilterQueryset (some "Foo") ([] : List TrackRecord) = Except.error e) ∨
    (∃ c, pyEvalName "Foo" = Except.ok c ∧
      customListFilterQueryset (some "Foo") ([] : List TrackRecord) =
        Except.ok (([] : List TrackRecord).filter
          (fun r => decide (classContentKind c = some r.target_content_type)))) :=
  c10_filter_evals_value "Foo" [] (by decide) (by decide) (by decide) (by decide)
